import Mathlib

/-!
Shallow embedding of the BES DAP Function Response Cache
(src/dap/BESDapFunctionResponseCache.cc).

C++ strings and byte streams are modelled as lists of characters
(`Str`), the shared cache directory as an association list from file
names to file data, and the advisory lock set as an association list
from file names to lock kinds.  The libdap collaborators (constraint
evaluator, XML descriptor writer, serialization codec, string hash) are
abstract parameters collected in `Ctx`; the spec treats them as external
collaborators (spec section 6).  The file-locking substrate
(BESFileLockingCache) is part of this repository but its source is not
under src/; its operations are modelled from the spec, section 4.1.
-/

set_option maxRecDepth 4000

abbrev Str := List Char

/-- Exceptions thrown by the cache code and its collaborators.
`tooManyCollisions` is the BESInternalError raised in load_from_cache;
`parseFailed` is the BESInternalError that wraps the libdap parse error
raised when the DDX is interned from a failed input stream;
`openFailed` is the BESInternalError thrown by write_dataset_to_cache
when the ofstream directed at the locked cache file fails to open
(source lines 508-510); the numbered constructors stand for errors of
the abstract collaborators (evaluator, codec, disk write). -/
inductive Err where
  | tooManyCollisions (count : Nat) (rid : Str)
  | parseFailed
  | openFailed (name : Str)
  | evalFailed (code : Nat)
  | codecFailed (code : Nat)
deriving DecidableEq

inductive LockKind where
  | shared
  | exclusive
deriving DecidableEq

/-- One file of the cache directory: its byte content and its stat
metadata (modification and access time). -/
structure FileData where
  content : Str
  mtime : Nat
  atime : Nat
deriving DecidableEq

/-- The shared state: the cache directory, the advisory locks this
process holds, and the total recorded in the sidecar accounting
record of the substrate. -/
structure FS where
  files : List (Str × FileData)
  locks : List (Str × LockKind)
  info : Nat
deriving DecidableEq

/-- Association-list lookup by file name (first match). -/
def findEnt {β : Type} : List (Str × β) → Str → Option β
  | [], _ => none
  | (m, b) :: t, n => if m = n then some b else findEnt t n

/-- Remove every entry under the given name. -/
def dropEnt {β : Type} : List (Str × β) → Str → List (Str × β)
  | [], _ => []
  | (m, b) :: t, n => if m = n then dropEnt t n else (m, b) :: dropEnt t n

/-- Update every entry under the given name. -/
def updEnt {β : Type} (f : β → β) : List (Str × β) → Str → List (Str × β)
  | [], _ => []
  | (m, b) :: t, n => if m = n then (m, f b) :: updEnt f t n else (m, b) :: updEnt f t n

mutual
/-- A libdap variable, reduced to what the cache code observes of it:
its name, its read and send flags, whether its type is
dods_sequence_c, and for sequences the current row number together
with the child variables (spec section 9, tagged-variant model). -/
inductive BaseType where
  | prim (name : Str) (read_p : Bool) (send_p : Bool)
  | seq (name : Str) (read_p : Bool) (send_p : Bool) (row : Nat) (kids : BTList)
inductive BTList where
  | nil
  | cons (hd : BaseType) (tl : BTList)
end

/-- A libdap DDS, reduced to its filename and its top-level variables. -/
structure Dataset where
  filename : Str
  vars : List BaseType

/-- The external collaborators of the cache (spec section 6) and its
configuration.  `hash` is std::hash over the resource id; `root` is the
cache-directory path joined with the configured item name root, as
produced by BESFileLockingCache::get_cache_file_name; `evalFn` is
parse_constraint followed by eval_function_clauses; `printXml` is
DDS::print_xml_writer; `serializeVar` is BaseType::serialize through a
CacheMarshaller; `decodeFn` is DDXParser intern_stream followed by the
deserialize loop of read_cached_data, applied to the stream contents
after the header line; `openOk` tells whether the filesystem lets an
ofstream directed at the given name open (false models the
ENOSPC/permission condition in which the is_open test of source line
509 fails). -/
structure Ctx where
  hash : Str → Nat
  root : Str
  size_mb : Nat
  now : Nat
  evalFn : Str → Dataset → Except Err Dataset
  printXml : Dataset → Str
  serializeVar : BaseType → Except Err Str
  decodeFn : Str → Except Err Dataset
  openOk : Str → Bool

def DATA_MARK : Str := ("--DATA:").data

def max_cacheable_ce_len : Nat := 4096

def max_collisions : Nat := 50

def natStr (n : Nat) : Str := (Nat.repr n).data

/-- BESDapFunctionResponseCache::get_resource_id (source line 273). -/
def get_resource_id (dds : Dataset) (constraint : Str) : Str :=
  dds.filename ++ '#' :: constraint

/-- BESDapFunctionResponseCache::can_be_cached (source line 278):
the constraint length plus the dataset filename length must not exceed
max_cacheable_ce_len. -/
def can_be_cached (dds : Dataset) (constraint : Str) : Bool :=
  constraint.length + dds.filename.length ≤ max_cacheable_ce_len

/-- BESDapFunctionResponseCache::is_valid (source line 240): an entry is
invalid if it cannot be stat'ed or is zero bytes; the dataset time
defaults to the entry time when the dataset cannot be stat'ed, and the
entry is invalid when the dataset is newer than the entry. -/
def is_valid (fs : FS) (cache_file_name dataset : Str) : Bool :=
  match findEnt fs.files cache_file_name with
  | none => false
  | some fd =>
    if fd.content.length = 0 then false
    else
      let dataset_time : Nat :=
        match findEnt fs.files dataset with
        | some dfd => dfd.mtime
        | none => fd.mtime
      ¬ (dataset_time > fd.mtime)

/-- Modelled from the spec: BESFileLockingCache::get_read_lock
(section 4.1) — absent from src/.  If the file does not exist it
returns false without error; otherwise the shared lock is obtained. -/
def get_read_lock (fs : FS) (n : Str) : Bool × FS :=
  match findEnt fs.files n with
  | none => (false, fs)
  | some _ => (true, { fs with locks := (n, LockKind.shared) :: fs.locks })

/-- Modelled from the spec: BESFileLockingCache::create_and_lock
(section 4.1) — absent from src/.  Atomically creates a new, empty,
exclusively locked file; returns false without error when the file
already exists. -/
def create_and_lock (fs : FS) (n : Str) (now : Nat) : Bool × FS :=
  match findEnt fs.files n with
  | some _ => (false, fs)
  | none =>
    (true, { fs with files := (n, ⟨[], now, now⟩) :: fs.files,
                     locks := (n, LockKind.exclusive) :: fs.locks })

/-- Modelled from the spec: BESFileLockingCache::exclusive_to_shared_lock
(section 4.1) — absent from src/.  Downgrades without releasing. -/
def exclusive_to_shared_lock (fs : FS) (n : Str) : FS :=
  { fs with locks := updEnt (fun _ => LockKind.shared) fs.locks n }

/-- Modelled from the spec: BESFileLockingCache::unlock_and_close
(section 4.1) — absent from src/.  Releases whatever lock is held under
the name; idempotent. -/
def unlock_and_close (fs : FS) (n : Str) : FS :=
  { fs with locks := dropEnt fs.locks n }

/-- Modelled from the spec: BESFileLockingCache::update_cache_info
(section 4.1) — absent from src/.  Stats the named file, adds its size
to the recorded total, writes the new total back, returns it. -/
def update_cache_info (fs : FS) (n : Str) : Nat × FS :=
  let size : Nat :=
    match findEnt fs.files n with
    | some fd => fd.content.length
    | none => 0
  (fs.info + size, { fs with info := fs.info + size })

/-- Modelled from the spec: BESFileLockingCache::cache_too_big
(section 4.1) — absent from src/. -/
def cache_too_big (ctx : Ctx) (total : Nat) : Bool :=
  total > ctx.size_mb * 1048576

/-- Modelled from the spec: BESFileLockingCache::purge_file
(section 4.1) — absent from src/.  Best-effort unlink, used for
cleanup after a failed write. -/
def purge_file (fs : FS) (n : Str) : FS :=
  { fs with files := dropEnt fs.files n }

/-- Insertion step of the access-time sort used by the purge. -/
def insertAtime (p : Str × FileData) : List (Str × FileData) → List (Str × FileData)
  | [] => [p]
  | q :: t => if p.2.atime ≤ q.2.atime then p :: q :: t else q :: insertAtime p t

/-- Sort the directory entries by access time, oldest first. -/
def sortByAtime : List (Str × FileData) → List (Str × FileData)
  | [] => []
  | p :: t => insertAtime p (sortByAtime t)

/-- Victim selection of the purge: walk the entries oldest first, skip
the exempt entry and any locked entry, delete until the running total
is at or below the target; returns the deleted names and the new
total. -/
def purgeGo (exempt : Str) (locks : List (Str × LockKind)) (target : Nat) :
    List (Str × FileData) → Nat → List Str × Nat
  | [], total => ([], total)
  | (n, fd) :: t, total =>
    if total ≤ target then ([], total)
    else if n = exempt ∨ (findEnt locks n).isSome then purgeGo exempt locks target t total
    else
      let r := purgeGo exempt locks target t (total - fd.content.length)
      (n :: r.1, r.2)

/-- Remove from the directory every entry whose name was selected as a
purge victim. -/
def removeVictims : List (Str × FileData) → List Str → List (Str × FileData)
  | [], _ => []
  | p :: t, names =>
    if p.1 ∈ names then removeVictims t names else p :: removeVictims t names

/-- Modelled from the spec: BESFileLockingCache::update_and_purge
(section 4.1) — absent from src/.  Under the accounting lock, delete
least-recently-accessed entries, skipping the exempt name and locked
entries, until the recorded total is at or below 80 percent of the
high-water mark; rewrite the accounting record. -/
def update_and_purge (ctx : Ctx) (fs : FS) (exempt : Str) : FS :=
  let target := ctx.size_mb * 1048576 * 8 / 10
  let r := purgeGo exempt fs.locks target (sortByAtime fs.files) fs.info
  { fs with files := removeVictims fs.files r.1, info := r.2 }

/-- Overwrite the named file's content, refreshing its stat times, as
the ofstream directed at the locked cache file does. -/
def write_file (fs : FS) (n : Str) (c : Str) (now : Nat) : FS :=
  { fs with files := updEnt (fun _ => ⟨c, now, now⟩) fs.files n }

/-- The read flag of a variable (libdap BaseType::read_p). -/
def readP : BaseType → Bool
  | .prim _ r _ => r
  | .seq _ r _ _ _ => r

/-- The send flag of a variable (libdap BaseType::send_p). -/
def sendP : BaseType → Bool
  | .prim _ _ s => s
  | .seq _ _ s _ _ => s

/-- Whether the variable's type() is dods_sequence_c. -/
def isSeq : BaseType → Bool
  | .prim _ _ _ => false
  | .seq _ _ _ _ _ => true

/-- libdap BaseType::set_read_p on the variable itself (spec section 6). -/
def set_read_p (v : BaseType) (b : Bool) : BaseType :=
  match v with
  | .prim n _ s => .prim n b s
  | .seq n _ s row k => .seq n b s row k

/-- libdap BaseType::set_send_p on the variable itself (spec section 6). -/
def set_send_p (v : BaseType) (b : Bool) : BaseType :=
  match v with
  | .prim n r _ => .prim n r b
  | .seq n r _ row k => .seq n r b row k

mutual
/-- libdap Sequence::reset_row_number with recur = true (spec
section 6): the current row number of the sequence and of every nested
sequence is reset so a later serialize pass starts from row 0. -/
def reset_row_number : BaseType → BaseType
  | .prim n r s => .prim n r s
  | .seq n r s _ k => .seq n r s 0 (resetList k)
/-- reset_row_number mapped over child variables. -/
def resetList : BTList → BTList
  | .nil => .nil
  | .cons v t => .cons (reset_row_number v) (resetList t)
end

mutual
/-- Every sequence in the variable tree has current row number 0. -/
def rowsZero : BaseType → Bool
  | .prim _ _ _ => true
  | .seq _ _ _ row k => (row == 0) && rowsZeroList k
/-- rowsZero over child variables. -/
def rowsZeroList : BTList → Bool
  | .nil => true
  | .cons v t => rowsZero v && rowsZeroList t
end

/-- Body of the marking loop of read_cached_data (source lines
460-471): mark the variable as read and to-send, and for sequences
reset the current row number recursively. -/
def mark_and_reset (v : BaseType) : BaseType :=
  let v1 := set_read_p v true
  let v2 := set_send_p v1 true
  if isSeq v2 then reset_row_number v2 else v2

/-- BESDapFunctionResponseCache::read_cached_data (source line 430).
The DDX parse and the deserialize loop over the stream are the abstract
codec; their outcome is the argument.  On success every top-level
variable is marked read and to-send, and sequences get their row
numbers reset recursively; a parse or deserialize error is rethrown as
a BESInternalError. -/
def read_cached_data (parsed : Except Err Dataset) : Except Err Dataset :=
  match parsed with
  | .error e => .error e
  | .ok d => .ok { d with vars := d.vars.map mark_and_reset }

/-- The candidate entry name probed at a given suffix (source line
382): the base name, an underscore, and the decimal suffix. -/
def candName (base : Str) (k : Nat) : Str := base ++ '_' :: natStr k

/-- The header line istream::getline reads into its 4096-byte buffer:
at most 4095 characters of the first line are stored. -/
def headerRead (content : Str) : Str :=
  (content.takeWhile (fun c => c ≠ '\n')).take (max_cacheable_ce_len - 1)

/-- getline sets failbit when it stores no characters at all or fills
the buffer (stores 4095 characters) before reaching the newline; the
stream is then unusable for the subsequent DDX parse. -/
def headerFailed (content : Str) : Bool :=
  content.isEmpty ||
    max_cacheable_ce_len - 1 ≤ (content.takeWhile (fun c => c ≠ '\n')).length

/-- The stream contents following the header line. -/
def afterHeader (content : Str) : Str :=
  (content.dropWhile (fun c => c ≠ '\n')).drop 1

/-- The probe loop of BESDapFunctionResponseCache::load_from_cache
(source lines 371-419), one `fuel` tick per do-while iteration.  `k` is
suffix_counter.  Throw past max_collisions; a nonexistent candidate is
a miss and becomes the slot to write into; an existing candidate is
read under a shared lock: a header match yields the decoded entry (or
the rethrown parse error, the lock still held, when the stream failed
or the codec errors), a mismatch releases the lock and continues with
the next suffix.  The fuel-0 result equals the guard's throw and is
never reached from load_from_cache, whose fuel exceeds the guard. -/
def load_loop (ctx : Ctx) (fs : FS) (resource_id base : Str) :
    Nat → Nat → Except Err (Option Dataset × Str) × FS
  | k, 0 => (.error (.tooManyCollisions k resource_id), fs)
  | k, fuel + 1 =>
    if max_collisions < k then (.error (.tooManyCollisions k resource_id), fs)
    else
      let cand := candName base k
      match get_read_lock fs cand with
      | (false, _) =>
        -- the candidate does not exist: miss, and cand is the slot for
        -- write_dataset_to_cache
        (.ok (none, cand), fs)
      | (true, fsL) =>
        -- the candidate exists and is now shared-locked; an ifstream
        -- reads its first line
        let fd := (findEnt fs.files cand).getD ⟨[], 0, 0⟩
        if headerRead fd.content = resource_id then
          if headerFailed fd.content then (.error .parseFailed, fsL)
          else
            match read_cached_data (ctx.decodeFn (afterHeader fd.content)) with
            | .error e => (.error e, fsL)
            | .ok d => (.ok (some d, base), unlock_and_close fsL cand)
        else
          load_loop ctx (unlock_and_close fsL cand) resource_id base (k + 1) fuel

/-- BESDapFunctionResponseCache::load_from_cache (source line 364):
run the probe loop from suffix 0 with enough fuel that the collision
guard always fires first. -/
def load_from_cache (ctx : Ctx) (fs : FS) (resource_id cache_file_name : Str) :
    Except Err (Option Dataset × Str) × FS :=
  load_loop ctx fs resource_id cache_file_name 0 (max_collisions + 2)

/-- The serialization loop of write_dataset_to_cache (source lines
533-537): each variable marked to-send is serialized, in order,
through the CacheMarshaller. -/
def cache_payload (ctx : Ctx) : List BaseType → Except Err Str
  | [] => .ok []
  | v :: t =>
    if sendP v then
      match ctx.serializeVar v with
      | .error e => .error e
      | .ok s =>
        match cache_payload ctx t with
        | .error e => .error e
        | .ok rest => .ok (s ++ rest)
    else cache_payload ctx t

/-- The full byte content the write path produces for a dataset d: the
resource id line, the XML descriptor of d, the data mark line, and the
payload of d's to-send variables. -/
def make_entry_content (ctx : Ctx) (resource_id : Str) (d : Dataset) : Except Err Str :=
  match cache_payload ctx d.vars with
  | .error e => .error e
  | .ok payload =>
    .ok (resource_id ++ '\n' :: (ctx.printXml d ++ DATA_MARK ++ '\n' :: payload))

/-- BESDapFunctionResponseCache::write_dataset_to_cache (source line
495).  If create_and_lock fails the file already exists and null is
returned.  Next the ofstream is opened at the locked cache file; if
that open fails, a BESInternalError is thrown from outside the try
block (source lines 508-510), so the just-created empty file is not
purged and the exclusive lock is not released.  Otherwise the resource
id line is written, the function is evaluated, and the descriptor and
payload are written — of `dds`, the dataset passed in, exactly as the
source does at lines 522 and 533 (not of `fdds`, the function result)
— then the lock is downgraded, the accounting is updated, a purge runs
if the cache is too big, and the lock is released.  On any failure in
the try block the stream is closed, the partial file is purged, the
lock is released, and the exception is rethrown; the final state is
the same whether the failure struck before or after the partial bytes
went out. -/
def write_dataset_to_cache (ctx : Ctx) (fs : FS) (dds : Dataset)
    (resource_id func_ce cache_file_name : Str) : Except Err (Option Dataset) × FS :=
  match create_and_lock fs cache_file_name ctx.now with
  | (false, _) => (.ok none, fs)
  | (true, fs1) =>
    match ctx.openOk cache_file_name with
    | false =>
      -- the is_open test fails: the throw happens before the try block,
      -- leaving the empty file in place and the exclusive lock held
      (.error (.openFailed cache_file_name), fs1)
    | true =>
    match ctx.evalFn func_ce dds with
    | .error e => (.error e, unlock_and_close (purge_file fs1 cache_file_name) cache_file_name)
    | .ok fdds =>
      match make_entry_content ctx resource_id dds with
      | .error e => (.error e, unlock_and_close (purge_file fs1 cache_file_name) cache_file_name)
      | .ok content =>
        let fs2 := write_file fs1 cache_file_name content ctx.now
        let fs3 := exclusive_to_shared_lock fs2 cache_file_name
        let r := update_cache_info fs3 cache_file_name
        let fs5 := if cache_too_big ctx r.1 then update_and_purge ctx r.2 cache_file_name else r.2
        (.ok (some fdds), unlock_and_close fs5 cache_file_name)

/-- Modelled from the spec: BESFileLockingCache::get_cache_file_name
(section 4.3) — absent from src/.  The base file name is the cache
root joined with the decimal string of the hash of the resource id. -/
def cache_base (ctx : Ctx) (resource_id : Str) : Str :=
  ctx.root ++ natStr (ctx.hash resource_id)

/-- BESDapFunctionResponseCache::get_or_cache_dataset (source line
300).  `env1` and `env2` model the actions other processes sharing the
cache directory may take between the orchestrator's three substrate
calls (spec section 5); a single-process run instantiates both with
id.  The resource id is the filename glued to the constraint with a
hash mark; the first probe either hits (the returned dataset's
filename is set to the dataset's filename) or records the slot name;
the write either succeeds or returns null on the create race, in which
case a second probe runs, and a second miss leaves the result null. -/
def get_or_cache_dataset (ctx : Ctx) (env1 env2 : FS → FS) (fs : FS)
    (dds : Dataset) (constraint : Str) : Except Err (Option Dataset) × FS :=
  let resourceId := get_resource_id dds constraint
  let cache_file_name := cache_base ctx resourceId
  match load_from_cache ctx fs resourceId cache_file_name with
  | (.error e, fs') => (.error e, fs')
  | (.ok (some d, _), fs') => (.ok (some { d with filename := dds.filename }), fs')
  | (.ok (none, slot), fs') =>
    let fsA := env1 fs'
    match write_dataset_to_cache ctx fsA dds resourceId constraint slot with
    | (.error e, fsB) => (.error e, fsB)
    | (.ok (some d), fsB) => (.ok (some d), fsB)
    | (.ok none, fsB) =>
      let fsC := env2 fsB
      match load_from_cache ctx fsC resourceId slot with
      | (.error e, fsD) => (.error e, fsD)
      | (.ok (some d, _), fsD) => (.ok (some { d with filename := dds.filename }), fsD)
      | (.ok (none, _), fsD) => (.ok none, fsD)

theorem findEnt_dropEnt_self {β : Type} (l : List (Str × β)) (n : Str) :
    findEnt (dropEnt l n) n = none := by
  induction l with
  | nil => rfl
  | cons p t ih =>
    cases p with
    | mk m b =>
      by_cases h : m = n
      · simp [dropEnt, h, ih]
      · simp [dropEnt, findEnt, h, ih]

theorem findEnt_updEnt {β : Type} (f : β → β) (l : List (Str × β)) (n : Str) :
    findEnt (updEnt f l n) n = (findEnt l n).map f := by
  induction l with
  | nil => rfl
  | cons p t ih =>
    cases p with
    | mk m b =>
      by_cases h : m = n
      · simp [updEnt, findEnt, h]
      · simp [updEnt, findEnt, h, ih]

theorem takeWhile_append_newline (a b : Str) (h : '\n' ∉ a) :
    (a ++ '\n' :: b).takeWhile (fun c => c ≠ '\n') = a := by
  induction a with
  | nil => simp
  | cons c t ih =>
    have hc : c ≠ '\n' := by
      intro hc
      exact h (hc ▸ List.mem_cons_self c t)
    have ht : '\n' ∉ t := fun hm => h (List.mem_cons_of_mem c hm)
    simp [List.takeWhile_cons, hc]
    simpa using ih ht

theorem load_loop_files (ctx : Ctx) (rid base : Str) :
    ∀ fuel k fs, ((load_loop ctx fs rid base k fuel).2).files = fs.files := by
  intro fuel
  induction fuel with
  | zero => intro k fs; rfl
  | succ f ih =>
    intro k fs
    by_cases hk : max_collisions < k
    · simp [load_loop, hk]
    · rcases hf : findEnt fs.files (candName base k) with _ | fd
      · simp [load_loop, hk, get_read_lock, hf]
      · by_cases hh : headerRead fd.content = rid
        · by_cases hfail : headerFailed fd.content = true
          · simp [load_loop, hk, get_read_lock, hf, hh, hfail]
          · rcases hr : read_cached_data (ctx.decodeFn (afterHeader fd.content)) with e | d
            · simp [load_loop, hk, get_read_lock, hf, hh, hfail, hr]
            · simp [load_loop, hk, get_read_lock, hf, hh, hfail, hr, unlock_and_close]
        · have := ih (k + 1)
            { fs with locks := dropEnt ((candName base k, LockKind.shared) :: fs.locks) (candName base k) }
          simp [load_loop, hk, get_read_lock, hf, hh, unlock_and_close] at this ⊢
          exact this

theorem purgeGo_mem_ne (exempt : Str) (locks : List (Str × LockKind)) (target : Nat) :
    ∀ l total n, n ∈ (purgeGo exempt locks target l total).1 → n ≠ exempt := by
  intro l
  induction l with
  | nil => intro total n hn; simp [purgeGo] at hn
  | cons p t ih =>
    intro total n hn
    cases p with
    | mk m fd =>
      by_cases h1 : total ≤ target
      · simp [purgeGo, h1] at hn
      · by_cases h2 : m = exempt ∨ (findEnt locks m).isSome
        · simp [purgeGo, h1, h2] at hn
          exact ih _ n hn
        · simp [purgeGo, h1, h2] at hn
          rcases hn with hn | hn
          · push_neg at h2
            exact hn ▸ h2.1
          · exact ih _ n hn

theorem findEnt_removeVictims (l : List (Str × FileData)) (ns : List Str) (n : Str)
    (h : n ∉ ns) : findEnt (removeVictims l ns) n = findEnt l n := by
  induction l with
  | nil => rfl
  | cons p t ih =>
    cases p with
    | mk m fd =>
      by_cases hm : m ∈ ns
      · have hne : m ≠ n := by
          intro he
          exact h (he ▸ hm)
        simp [removeVictims, hm, findEnt, hne, ih]
      · simp [removeVictims, hm, findEnt, ih]

mutual
theorem rowsZero_reset : (v : BaseType) → rowsZero (reset_row_number v) = true
  | .prim _ _ _ => rfl
  | .seq _ _ _ _ k => by
    simp [reset_row_number, rowsZero, rowsZeroList_resetList k]
theorem rowsZeroList_resetList : (l : BTList) → rowsZeroList (resetList l) = true
  | .nil => rfl
  | .cons v t => by
    simp [resetList, rowsZeroList, rowsZero_reset v, rowsZeroList_resetList t]
end

theorem mark_and_reset_props (v : BaseType) :
    readP (mark_and_reset v) = true ∧ sendP (mark_and_reset v) = true ∧
      (isSeq (mark_and_reset v) = true → rowsZero (mark_and_reset v) = true) := by
  cases v with
  | prim n r s =>
    simp [mark_and_reset, set_read_p, set_send_p, isSeq, readP, sendP]
  | seq n r s row k =>
    simp [mark_and_reset, set_read_p, set_send_p, isSeq, readP, sendP,
      reset_row_number, rowsZero, rowsZeroList_resetList k]

def dds_c2 : Dataset := ⟨['f'], []⟩

def con_c2 : Str := List.replicate 4095 'x'

/-- C2 fails as stated: with a one-character filename and a
4095-character constraint the resource identifier is 4097 bytes long,
which exceeds 4096, yet can_be_cached accepts the pair, because the
source compares the sum of the two lengths — without the joining hash
mark — against 4096. -/
theorem c2_counterexample :
    can_be_cached dds_c2 con_c2 = true ∧
      ¬ (get_resource_id dds_c2 con_c2).length ≤ max_cacheable_ce_len := by
  constructor
  · simp only [can_be_cached, dds_c2, con_c2, max_cacheable_ce_len,
      List.length_replicate, List.length_cons, List.length_nil, decide_eq_true_eq]
    omega
  · simp only [get_resource_id, dds_c2, con_c2, max_cacheable_ce_len,
      List.length_append, List.length_cons, List.length_nil, List.length_replicate]
    omega

/-- C2 (amended): can_be_cached(D, C) returns true exactly when the
length of the filename plus the length of the constraint is at most
4096, that is, when the resource identifier D.filename() # C — which
also holds the one-byte hash mark — is at most 4097 bytes long. -/
theorem c2_can_be_cached_iff (dds : Dataset) (constraint : Str) :
    can_be_cached dds constraint = true ↔
      (get_resource_id dds constraint).length ≤ max_cacheable_ce_len + 1 := by
  simp [can_be_cached, get_resource_id, max_cacheable_ce_len]
  omega

/-- C6: whenever read_cached_data reconstructs a dataset from a cache
entry, every top-level variable of the result has its read flag and its
to-send flag set to true, and every top-level variable of sequence type
has its current row number reset recursively to 0 (source lines
460-471). -/
theorem c6_read_marks_variables (parsed : Except Err Dataset) (d : Dataset)
    (h : read_cached_data parsed = .ok d) :
    ∀ v ∈ d.vars, readP v = true ∧ sendP v = true ∧
      (isSeq v = true → rowsZero v = true) := by
  cases parsed with
  | error e => simp [read_cached_data] at h
  | ok d0 =>
    simp only [read_cached_data, Except.ok.injEq] at h
    intro v hv
    rw [← h] at hv
    simp only [List.mem_map] at hv
    obtain ⟨w, _, hw⟩ := hv
    exact hw ▸ mark_and_reset_props w

def parsed_c6 : Except Err Dataset :=
  .ok ⟨[], [.seq (['s']) false false 3 (.cons (.prim (['p']) false true) .nil)]⟩

def dout_c6 : Dataset :=
  ⟨[], [.seq (['s']) true true 0 (.cons (.prim (['p']) false true) .nil)]⟩

/-- Witness for C6 at a concrete decoded dataset holding one sequence
with a nonzero row number. -/
theorem c6_witness :
    read_cached_data parsed_c6 = .ok dout_c6 ∧
      ∀ v ∈ dout_c6.vars, readP v = true ∧ sendP v = true ∧
        (isSeq v = true → rowsZero v = true) :=
  ⟨rfl, c6_read_marks_variables parsed_c6 dout_c6 rfl⟩

/-- C3 (amended): exceptions raised inside the try block of
write_dataset_to_cache after create_and_lock has succeeded — evaluator
error, write failure, codec failure — are cleaned up: the
partially-written cache file is unlinked, the lock on it is released,
and the same exception is re-raised to the caller (source lines
553-567).  The one exception path outside the try block is different:
when the ofstream directed at the just-created cache file fails to
open, the BESInternalError of source lines 508-510 is raised after
create_and_lock but before the try block, and it propagates with the
zero-byte cache file still present and the exclusive lock still
held. -/
theorem c3_write_error_cleanup (ctx : Ctx) (fs : FS) (dds : Dataset)
    (rid ce name : Str) (e : Err)
    (hcreate : findEnt fs.files name = none) :
    (ctx.openOk name = false →
      (write_dataset_to_cache ctx fs dds rid ce name).1 = .error (.openFailed name) ∧
        findEnt (write_dataset_to_cache ctx fs dds rid ce name).2.files name =
          some ⟨[], ctx.now, ctx.now⟩ ∧
        findEnt (write_dataset_to_cache ctx fs dds rid ce name).2.locks name =
          some .exclusive) ∧
    (ctx.openOk name = true →
      (ctx.evalFn ce dds = .error e ∨
        (∃ fdds, ctx.evalFn ce dds = .ok fdds ∧
          make_entry_content ctx rid dds = .error e)) →
      (write_dataset_to_cache ctx fs dds rid ce name).1 = .error e ∧
        findEnt (write_dataset_to_cache ctx fs dds rid ce name).2.files name = none ∧
        findEnt (write_dataset_to_cache ctx fs dds rid ce name).2.locks name = none) := by
  constructor
  · intro ho
    simp [write_dataset_to_cache, create_and_lock, hcreate, ho, findEnt]
  · intro ho hfail
    rcases hfail with he | ⟨fdds, he, hm⟩
    · simp [write_dataset_to_cache, create_and_lock, hcreate, ho, he, unlock_and_close,
        purge_file, findEnt_dropEnt_self]
    · simp [write_dataset_to_cache, create_and_lock, hcreate, ho, he, hm, unlock_and_close,
        purge_file, findEnt_dropEnt_self]

def fs_empty : FS := ⟨[], [], 0⟩

def ctx_fail : Ctx :=
  { hash := fun _ => 0
    root := ("rc").data
    size_mb := 1
    now := 7
    evalFn := fun _ _ => .error (.evalFailed 3)
    printXml := fun _ => ("<x/>").data
    serializeVar := fun _ => .ok []
    decodeFn := fun _ => .ok ⟨[], []⟩
    openOk := fun _ => true }

def ctx_noopen : Ctx := { ctx_fail with openOk := fun _ => false }

def dds_triv : Dataset := ⟨['f'], []⟩

def slot_triv : Str := ("rc0_0").data

/-- C3 fails as stated: with a filesystem refusing the ofstream open,
the exception thrown after create_and_lock succeeded (source lines
508-510) reaches the caller while the zero-byte cache file has not
been unlinked and the exclusive lock on it has not been released. -/
theorem c3_counterexample :
    (write_dataset_to_cache ctx_noopen fs_empty dds_triv ['r'] ['c'] slot_triv).1 =
        .error (.openFailed slot_triv) ∧
      findEnt (write_dataset_to_cache ctx_noopen fs_empty dds_triv ['r'] ['c'] slot_triv).2.files
        slot_triv = some ⟨[], 7, 7⟩ ∧
      findEnt (write_dataset_to_cache ctx_noopen fs_empty dds_triv ['r'] ['c'] slot_triv).2.locks
        slot_triv = some .exclusive :=
  ⟨rfl, rfl, rfl⟩

/-- Witness for C3: a concrete refused open, and a concrete evaluator
failure inside the try block, both on an empty cache. -/
theorem c3_witness :
    ((write_dataset_to_cache ctx_noopen fs_empty dds_triv ['r'] ['c'] slot_triv).1 =
        .error (.openFailed slot_triv) ∧
      findEnt (write_dataset_to_cache ctx_noopen fs_empty dds_triv ['r'] ['c'] slot_triv).2.files
        slot_triv = some ⟨[], 7, 7⟩ ∧
      findEnt (write_dataset_to_cache ctx_noopen fs_empty dds_triv ['r'] ['c'] slot_triv).2.locks
        slot_triv = some .exclusive) ∧
    ((write_dataset_to_cache ctx_fail fs_empty dds_triv ['r'] ['c'] slot_triv).1 =
        .error (.evalFailed 3) ∧
      findEnt (write_dataset_to_cache ctx_fail fs_empty dds_triv ['r'] ['c'] slot_triv).2.files
        slot_triv = none ∧
      findEnt (write_dataset_to_cache ctx_fail fs_empty dds_triv ['r'] ['c'] slot_triv).2.locks
        slot_triv = none) :=
  ⟨(c3_write_error_cleanup ctx_noopen fs_empty dds_triv ['r'] ['c'] slot_triv
      (.evalFailed 3) rfl).1 rfl,
   (c3_write_error_cleanup ctx_fail fs_empty dds_triv ['r'] ['c'] slot_triv
      (.evalFailed 3) rfl).2 rfl (Or.inl rfl)⟩

/-- C5: after every successful write by write_dataset_to_cache — one
that returns a dataset — the first line of the entry file under the
written name equals the exact resource identifier, the identifier
being written, newline-terminated, before the descriptor, the data
mark and the payload (source lines 508-515).  The identifier is
assumed newline-free, as a newline inside it would end the first line
early. -/
theorem c5_header_line (ctx : Ctx) (fs : FS) (dds : Dataset)
    (rid ce name : Str) (fdds : Dataset)
    (hn : '\n' ∉ rid)
    (h : (write_dataset_to_cache ctx fs dds rid ce name).1 = .ok (some fdds)) :
    (findEnt (write_dataset_to_cache ctx fs dds rid ce name).2.files name).map
        (fun fd => fd.content.takeWhile (fun c => c ≠ '\n')) = some rid := by
  rcases hc : findEnt fs.files name with _ | fd0
  · rcases ho : ctx.openOk name with _ | _
    · simp [write_dataset_to_cache, create_and_lock, hc, ho] at h
    · rcases he : ctx.evalFn ce dds with e | fdds0
      · simp [write_dataset_to_cache, create_and_lock, hc, ho, he] at h
      · rcases hp : cache_payload ctx dds.vars with e | payload
        · simp [write_dataset_to_cache, create_and_lock, hc, ho, he,
            make_entry_content, hp] at h
        · have hfirst :
              (rid ++ '\n' :: (ctx.printXml dds ++ DATA_MARK ++ '\n' :: payload)).takeWhile
                (fun c => c ≠ '\n') = rid :=
            takeWhile_append_newline rid _ hn
          simp only [write_dataset_to_cache, create_and_lock, hc, ho, he,
            make_entry_content, hp, write_file, exclusive_to_shared_lock,
            update_cache_info, unlock_and_close, update_and_purge]
          split
          · rw [findEnt_removeVictims _ _ _
              (fun hmem => purgeGo_mem_ne _ _ _ _ _ _ hmem rfl)]
            simp [updEnt, findEnt]
            simpa using hfirst
          · simp [updEnt, findEnt]
            simpa using hfirst
  · simp [write_dataset_to_cache, create_and_lock, hc] at h

def ctx_ok : Ctx :=
  { hash := fun _ => 0
    root := ("rc").data
    size_mb := 1
    now := 7
    evalFn := fun _ d => .ok d
    printXml := fun _ => ("<x/>").data
    serializeVar := fun v =>
      .ok (match v with | .prim n _ _ => n | .seq n _ _ _ _ => n)
    decodeFn := fun _ => .ok ⟨[], []⟩
    openOk := fun _ => true }

def dds_c5 : Dataset := ⟨['f'], [.prim (['u']) true true]⟩

def rid_c5 : Str := ['f', '#', 'm']

/-- Witness for C5: a concrete successful write on an empty cache. -/
theorem c5_witness :
    '\n' ∉ rid_c5 ∧
      (findEnt (write_dataset_to_cache ctx_ok fs_empty dds_c5 rid_c5 ['m'] slot_triv).2.files
          slot_triv).map (fun fd => fd.content.takeWhile (fun c => c ≠ '\n')) = some rid_c5 :=
  ⟨by decide, c5_header_line ctx_ok fs_empty dds_c5 rid_c5 ['m'] slot_triv dds_c5
    (by decide) rfl⟩

/-- C10: the header comparison of load_from_cache reads at most 4095
characters of the first line (istream::getline with a 4096-byte
buffer, source lines 402-405), so a resource identifier of length 4096
or more — a length can_be_cached can still admit — never produces a
cache hit, whatever the cache contains. -/
theorem c10_long_rid_never_hits (ctx : Ctx) (rid base : Str)
    (h : max_cacheable_ce_len ≤ rid.length) :
    (∃ dds c, can_be_cached dds c = true ∧
        (get_resource_id dds c).length = max_cacheable_ce_len) ∧
      ∀ fuel fs k d n fs', load_loop ctx fs rid base k fuel ≠ (.ok (some d, n), fs') := by
  constructor
  · refine ⟨⟨['f'], []⟩, List.replicate 4094 'x', ?h1, ?h2⟩
    · simp only [can_be_cached, max_cacheable_ce_len, List.length_replicate,
        List.length_cons, List.length_nil, decide_eq_true_eq]
      omega
    · simp only [get_resource_id, max_cacheable_ce_len, List.length_append,
        List.length_cons, List.length_nil, List.length_replicate]
  · intro fuel
    induction fuel with
    | zero =>
      intro fs k d n fs' hcontra
      simp [load_loop] at hcontra
    | succ f ih =>
      intro fs k d n fs' hcontra
      by_cases hk : max_collisions < k
      · simp [load_loop, hk] at hcontra
      · rcases hf : findEnt fs.files (candName base k) with _ | fd
        · simp [load_loop, hk, get_read_lock, hf] at hcontra
        · have hne : headerRead fd.content ≠ rid := by
            intro he
            have hle : rid.length ≤ max_cacheable_ce_len - 1 := by
              rw [← he]
              exact List.length_take_le _ _
            have hml : max_cacheable_ce_len = 4096 := rfl
            rw [hml] at hle h
            omega
          simp [load_loop, hk, get_read_lock, hf, hne] at hcontra
          exact ih _ _ _ _ _ hcontra

def rid_c10 : Str := List.replicate 4096 'a'

/-- Witness for C10 at a 4096-character resource identifier. -/
theorem c10_witness :
    max_cacheable_ce_len ≤ rid_c10.length ∧
      ∀ fuel fs k d n fs',
        load_loop ctx_ok fs rid_c10 (("rc0").data) k fuel ≠ (.ok (some d, n), fs') := by
  have h : max_cacheable_ce_len ≤ rid_c10.length := by
    simp only [rid_c10, max_cacheable_ce_len, List.length_replicate]
    omega
  exact ⟨h, (c10_long_rid_never_hits ctx_ok rid_c10 (("rc0").data) h).2⟩

theorem load_loop_hit_header (ctx : Ctx) (rid base : Str) :
    ∀ fuel fs k d n fs', load_loop ctx fs rid base k fuel = (.ok (some d, n), fs') →
      ∃ j fd, k ≤ j ∧ findEnt fs.files (candName base j) = some fd ∧
        fd.content.takeWhile (fun c => c ≠ '\n') = rid := by
  intro fuel
  induction fuel with
  | zero =>
    intro fs k d n fs' h
    simp [load_loop] at h
  | succ f ih =>
    intro fs k d n fs' h
    by_cases hk : max_collisions < k
    · simp [load_loop, hk] at h
    · rcases hf : findEnt fs.files (candName base k) with _ | fd
      · simp [load_loop, hk, get_read_lock, hf] at h
      · by_cases hh : headerRead fd.content = rid
        · have hfail : headerFailed fd.content = false := by
            rcases hfl : headerFailed fd.content with _ | _
            · rfl
            · simp [load_loop, hk, get_read_lock, hf, hh, hfl] at h
          have hnle :
              ¬ max_cacheable_ce_len - 1 ≤
                  (fd.content.takeWhile (fun c => c ≠ '\n')).length := by
            intro hge
            have htrue : headerFailed fd.content = true := by
              rw [headerFailed, decide_eq_true hge, Bool.or_true]
            simp [htrue] at hfail
          have hline : fd.content.takeWhile (fun c => c ≠ '\n') = rid := by
            rw [← hh, headerRead]
            exact (List.take_of_length_le (Nat.le_of_lt (Nat.lt_of_not_le hnle))).symm
          exact ⟨k, fd, Nat.le_refl k, hf, hline⟩
        · simp [load_loop, hk, get_read_lock, hf, hh] at h
          obtain ⟨j, fd', hj, hfind, hline⟩ := ih _ _ _ _ _ h
          refine ⟨j, fd', Nat.le_of_succ_le hj, ?hrest, hline⟩
          simpa [unlock_and_close] using hfind

/-- C4: one iteration of the probe loop of load_from_cache, at suffix
counter k with fuel for the remaining iterations.  Past 50 collisions
an internal error is thrown; a nonexistent candidate is a miss
returning null with the candidate recorded as the slot a subsequent
write uses; an existing candidate whose stored header differs from the
resource id has its shared lock released before the next suffix is
tried; and whenever the loop reports a hit, some probed candidate's
first header line equals the resource identifier exactly (source lines
364-424). -/
theorem c4_load_from_cache_probe (ctx : Ctx) (fs : FS) (rid base : Str) (k f : Nat) :
    (max_collisions < k →
      load_loop ctx fs rid base k (f + 1) = (.error (.tooManyCollisions k rid), fs)) ∧
    (findEnt fs.files (candName base k) = none → ¬ max_collisions < k →
      load_loop ctx fs rid base k (f + 1) = (.ok (none, candName base k), fs)) ∧
    (∀ fd, findEnt fs.files (candName base k) = some fd →
      headerRead fd.content ≠ rid → ¬ max_collisions < k →
      load_loop ctx fs rid base k (f + 1) =
        load_loop ctx
          (unlock_and_close
            { fs with locks := (candName base k, LockKind.shared) :: fs.locks }
            (candName base k)) rid base (k + 1) f ∧
      findEnt
        (unlock_and_close
          { fs with locks := (candName base k, LockKind.shared) :: fs.locks }
          (candName base k)).locks (candName base k) = none) ∧
    (∀ fuel d n fs', load_loop ctx fs rid base k fuel = (.ok (some d, n), fs') →
      ∃ j fd, k ≤ j ∧ findEnt fs.files (candName base j) = some fd ∧
        fd.content.takeWhile (fun c => c ≠ '\n') = rid) := by
  refine ⟨?g1, ?g2, ?g3, ?g4⟩
  · intro hk
    simp [load_loop, hk]
  · intro hf hk
    simp [load_loop, hk, get_read_lock, hf]
  · intro fd hf hh hk
    constructor
    · simp [load_loop, hk, get_read_lock, hf, hh]
    · exact findEnt_dropEnt_self _ _
  · intro fuel d n fs' h
    exact load_loop_hit_header ctx rid base fuel fs k d n fs' h

def base_c4 : Str := ("rc0").data

def fs_c4mis : FS := ⟨[(candName base_c4 0, ⟨['z', '\n'], 5, 5⟩)], [], 0⟩

def fs_c4hit : FS := ⟨[(candName base_c4 0, ⟨['r', '\n'], 5, 5⟩)], [], 0⟩

/-- Witness for C4, exercising all four behaviors of the probe loop at
concrete states: the collision throw at counter 51, the miss on an
empty cache, the lock-releasing mismatch step, and the header property
of a concrete hit. -/
theorem c4_witness :
    load_loop ctx_ok fs_empty ['r'] base_c4 51 52 =
        (.error (.tooManyCollisions 51 ['r']), fs_empty) ∧
      load_loop ctx_ok fs_empty ['r'] base_c4 0 52 =
        (.ok (none, candName base_c4 0), fs_empty) ∧
      load_loop ctx_ok fs_c4mis ['r'] base_c4 0 52 =
        load_loop ctx_ok
          (unlock_and_close
            { fs_c4mis with locks := (candName base_c4 0, LockKind.shared) :: fs_c4mis.locks }
            (candName base_c4 0)) ['r'] base_c4 1 51 ∧
      ∃ j fd, 0 ≤ j ∧ findEnt fs_c4hit.files (candName base_c4 j) = some fd ∧
        fd.content.takeWhile (fun c => c ≠ '\n') = ['r'] := by
  refine ⟨?w1, ?w2, ?w3, ?w4⟩
  · exact (c4_load_from_cache_probe ctx_ok fs_empty ['r'] base_c4 51 51).1 (by decide)
  · exact (c4_load_from_cache_probe ctx_ok fs_empty ['r'] base_c4 0 51).2.1 rfl (by decide)
  · exact ((c4_load_from_cache_probe ctx_ok fs_c4mis ['r'] base_c4 0 51).2.2.1
      ⟨['z', '\n'], 5, 5⟩ rfl (by decide) (by decide)).1
  · exact (c4_load_from_cache_probe ctx_ok fs_c4hit ['r'] base_c4 0 51).2.2.2
      52 ⟨[], []⟩ base_c4 fs_c4hit rfl

def fs_c7 : FS :=
  ⟨[(candName base_c4 0, ⟨['f', '#', 'm', '\n'], 5, 5⟩), (['f'], ⟨['x'], 9, 9⟩)], [], 0⟩

def fs_c7z : FS := ⟨[(candName base_c4 0, ⟨[], 5, 5⟩), (['f'], ⟨['x'], 9, 9⟩)], [], 0⟩

/-- C7 fails as stated: in a state whose cache entry has modification
time 5 while the dataset file has modification time 9, is_valid does
report the entry invalid, yet get_or_cache_dataset still returns the
matching entry as a hit and leaves the cache directory unchanged — it
never calls is_valid, so the entry is not treated as invalid and is
not overwritten. -/
theorem c7_counterexample :
    is_valid fs_c7 (candName base_c4 0) ['f'] = false ∧
      get_or_cache_dataset ctx_ok id id fs_c7 ⟨['f'], []⟩ ['m'] =
        (.ok (some ⟨['f'], []⟩), fs_c7) ∧
      findEnt fs_c7.files (candName base_c4 0) = some ⟨['f', '#', 'm', '\n'], 5, 5⟩ :=
  ⟨rfl, rfl, rfl⟩

/-- C7 (amended): is_valid reports an entry invalid when it is zero
bytes or when the dataset's on-disk modification time is newer than
the entry's (source lines 240-271); but get_or_cache_dataset never
consults is_valid: whenever the probe finds an entry whose header
matches the resource identifier, that entry is returned as a hit and
the cache directory is left unchanged, irrespective of any
modification time, so a touched dataset does not cause the entry to be
invalidated or overwritten. -/
theorem c7_validity_and_hit :
    (∀ (fs : FS) (e d : Str) (fd : FileData), findEnt fs.files e = some fd →
        fd.content.length = 0 → is_valid fs e d = false) ∧
    (∀ (fs : FS) (e d : Str) (fd dfd : FileData), findEnt fs.files e = some fd →
        findEnt fs.files d = some dfd → fd.mtime < dfd.mtime →
        is_valid fs e d = false) ∧
    (∀ (ctx : Ctx) (env1 env2 : FS → FS) (fs : FS) (dds : Dataset) (c : Str)
        (d : Dataset) (n : Str) (fs' : FS),
        load_from_cache ctx fs (get_resource_id dds c)
            (cache_base ctx (get_resource_id dds c)) = (.ok (some d, n), fs') →
        get_or_cache_dataset ctx env1 env2 fs dds c =
            (.ok (some { d with filename := dds.filename }), fs') ∧
          fs'.files = fs.files) := by
  refine ⟨?g1, ?g2, ?g3⟩
  · intro fs e d fd hf hz
    simp [is_valid, hf, hz]
  · intro fs e d fd dfd hf hd hm
    by_cases hz : fd.content.length = 0
    · simp [is_valid, hf, hd, hz]
    · simp [is_valid, hf, hd, hz, hm]
  · intro ctx env1 env2 fs dds c d n fs' h
    constructor
    · simp [get_or_cache_dataset, h]
    · have hfiles :
          (load_from_cache ctx fs (get_resource_id dds c)
            (cache_base ctx (get_resource_id dds c))).2.files = fs.files :=
        load_loop_files _ _ _ _ _ _
      rw [h] at hfiles
      exact hfiles

/-- Witness for C7, discharging each hypothesis of the amended theorem
at the concrete states: a zero-byte entry, a stale entry, and the
concrete hit. -/
theorem c7_witness :
    is_valid fs_c7z (candName base_c4 0) ['f'] = false ∧
      is_valid fs_c7 (candName base_c4 0) ['f'] = false ∧
      (get_or_cache_dataset ctx_ok id id fs_c7 ⟨['f'], []⟩ ['m'] =
          (.ok (some ⟨['f'], []⟩), fs_c7) ∧
        fs_c7.files = fs_c7.files) :=
  ⟨c7_validity_and_hit.1 fs_c7z (candName base_c4 0) ['f'] ⟨[], 5, 5⟩ rfl rfl,
   c7_validity_and_hit.2.1 fs_c7 (candName base_c4 0) ['f'] ⟨['f', '#', 'm', '\n'], 5, 5⟩
     ⟨['x'], 9, 9⟩ rfl rfl (by decide),
   c7_validity_and_hit.2.2 ctx_ok id id fs_c7 ⟨['f'], []⟩ ['m'] ⟨[], []⟩
     (cache_base ctx_ok (get_resource_id ⟨['f'], []⟩ ['m'])) fs_c7 rfl⟩

theorem write_some_eval (ctx : Ctx) (fs : FS) (dds : Dataset)
    (rid ce name : Str) (fdds : Dataset) (fs' : FS)
    (h : write_dataset_to_cache ctx fs dds rid ce name = (.ok (some fdds), fs')) :
    ctx.evalFn ce dds = .ok fdds := by
  rcases hc : findEnt fs.files name with _ | fd0
  · rcases ho : ctx.openOk name with _ | _
    · simp [write_dataset_to_cache, create_and_lock, hc, ho] at h
    · rcases he : ctx.evalFn ce dds with e | f0
      · simp [write_dataset_to_cache, create_and_lock, hc, ho, he] at h
      · rcases hm : make_entry_content ctx rid dds with e | content
        · simp [write_dataset_to_cache, create_and_lock, hc, ho, he, hm] at h
        · simp [write_dataset_to_cache, create_and_lock, hc, ho, he, hm] at h
          exact congrArg Except.ok h.1
  · simp [write_dataset_to_cache, create_and_lock, hc] at h

/-- C8 (amended): whenever get_or_cache_dataset returns a dataset, on
either cache-hit path the returned dataset's filename has been set to
the original dataset's filename, while on the freshly-evaluated write
path the dataset is returned exactly as the evaluator produced it —
its filename is not adjusted by the cache (and is in particular never
assigned the cache file's name, which is assigned to no result). -/
theorem c8_filename_provenance (ctx : Ctx) (env1 env2 : FS → FS) (fs : FS)
    (dds : Dataset) (c : Str) (d : Dataset) (fs' : FS)
    (h : get_or_cache_dataset ctx env1 env2 fs dds c = (.ok (some d), fs')) :
    d.filename = dds.filename ∨ ctx.evalFn c dds = .ok d := by
  rcases h1 : load_from_cache ctx fs (get_resource_id dds c)
      (cache_base ctx (get_resource_id dds c)) with ⟨r1, fsA⟩
  rcases r1 with e | ⟨od, n⟩
  · simp [get_or_cache_dataset, h1] at h
  · rcases od with _ | d0
    · rcases h2 : write_dataset_to_cache ctx (env1 fsA) dds (get_resource_id dds c) c n
          with ⟨r2, fsB⟩
      rcases r2 with e | od2
      · simp [get_or_cache_dataset, h1, h2] at h
      · rcases od2 with _ | d1
        · rcases h3 : load_from_cache ctx (env2 fsB) (get_resource_id dds c) n
              with ⟨r3, fsD⟩
          rcases r3 with e | ⟨od3, m⟩
          · simp [get_or_cache_dataset, h1, h2, h3] at h
          · rcases od3 with _ | d2
            · simp [get_or_cache_dataset, h1, h2, h3] at h
            · simp [get_or_cache_dataset, h1, h2, h3] at h
              exact Or.inl (by rw [← h.1])
        · simp [get_or_cache_dataset, h1, h2] at h
          exact Or.inr (h.1 ▸ write_some_eval ctx (env1 fsA) dds
            (get_resource_id dds c) c n d1 fsB h2)
    · simp [get_or_cache_dataset, h1] at h
      exact Or.inl (by rw [← h.1])

def ctx_c8 : Ctx := { ctx_ok with evalFn := fun _ _ => .ok ⟨[], []⟩ }

/-- C8 fails as stated: on the write path get_or_cache_dataset returns
the evaluator's dataset unchanged, so when the evaluator's result
carries an empty filename — as libdap's eval_function_clauses builds a
fresh DDS — the returned dataset's filename is not the original
dataset's filename. -/
theorem c8_counterexample :
    (get_or_cache_dataset ctx_c8 id id fs_empty ⟨['f'], []⟩ ['m']).1 =
        .ok (some ⟨[], []⟩) ∧
      (⟨[], []⟩ : Dataset).filename ≠ (⟨['f'], []⟩ : Dataset).filename :=
  ⟨rfl, by decide⟩

/-- Witness for C8 at the concrete cache-hit state of fs_c7. -/
theorem c8_witness :
    (⟨['f'], []⟩ : Dataset).filename = (⟨['f'], []⟩ : Dataset).filename ∨
      ctx_ok.evalFn ['m'] ⟨['f'], []⟩ = .ok ⟨['f'], []⟩ :=
  c8_filename_provenance ctx_ok id id fs_c7 ⟨['f'], []⟩ ['m'] ⟨['f'], []⟩ fs_c7 rfl

/-- C9: get_or_cache_dataset can return a null pointer: if the first
probe misses and records a slot, create_and_lock then fails because
another process created that file in between (write_dataset_to_cache
returns null without writing), and the second probe also misses, then
every branch leaves the result null and null is returned to the caller
(source lines 328-346). -/
theorem c9_null_return (ctx : Ctx) (env1 env2 : FS → FS) (fs : FS)
    (dds : Dataset) (c slot slot2 : Str) (fs1 : FS)
    (h1 : load_from_cache ctx fs (get_resource_id dds c)
        (cache_base ctx (get_resource_id dds c)) = (.ok (none, slot), fs1))
    (h2 : (findEnt (env1 fs1).files slot).isSome = true)
    (h3 : (load_from_cache ctx (env2 (env1 fs1)) (get_resource_id dds c) slot).1 =
        .ok (none, slot2)) :
    (get_or_cache_dataset ctx env1 env2 fs dds c).1 = .ok none := by
  rcases hfd : findEnt (env1 fs1).files slot with _ | fd
  · rw [hfd] at h2
    simp at h2
  · rcases hload2 : load_from_cache ctx (env2 (env1 fs1)) (get_resource_id dds c) slot
        with ⟨r3, fsD⟩
    rw [hload2] at h3
    simp at h3
    rw [h3] at hload2
    simp [get_or_cache_dataset, h1, write_dataset_to_cache, create_and_lock, hfd, hload2]

def env_c9 : FS → FS :=
  fun fs => { fs with files := (candName base_c4 0, ⟨['z', '\n'], 3, 3⟩) :: fs.files }

/-- Witness for C9: on an empty cache the first probe misses and
records slot rc0_0; env_c9 models another process creating rc0_0 in
the meantime, so create_and_lock fails; the second probe — run, as the
source does, with the updated cache_file_name — misses as well, and
null is returned. -/
theorem c9_witness :
    (get_or_cache_dataset ctx_ok env_c9 id fs_empty ⟨['f'], []⟩ ['m']).1 = .ok none :=
  c9_null_return ctx_ok env_c9 id fs_empty ⟨['f'], []⟩ ['m'] (candName base_c4 0)
    (candName (candName base_c4 0) 0) fs_empty rfl rfl rfl

instance exceptDecEq {ε α : Type} [DecidableEq ε] [DecidableEq α] :
    DecidableEq (Except ε α) := fun a b =>
  match a, b with
  | .ok x, .ok y =>
    if h : x = y then .isTrue (by rw [h]) else .isFalse (fun hc => h (by injection hc))
  | .ok _, .error _ => .isFalse (fun hc => Except.noConfusion hc)
  | .error _, .ok _ => .isFalse (fun hc => Except.noConfusion hc)
  | .error x, .error y =>
    if h : x = y then .isTrue (by rw [h]) else .isFalse (fun hc => h (by injection hc))

def ctx_c1 : Ctx :=
  { ctx_ok with
      evalFn := fun _ _ => .ok ⟨("/data/f.nc").data, [.prim (("mean_u").data) true true]⟩ }

def dds_c1 : Dataset := ⟨("/data/f.nc").data, [.prim (['u']) true true]⟩

def fdds_c1 : Dataset := ⟨("/data/f.nc").data, [.prim (("mean_u").data) true true]⟩

def rid_c1 : Str := get_resource_id dds_c1 (("mean(u,0)").data)

/-- C1 fails on the code: at a concrete dataset with variable u and a
function result with variable mean_u, write_dataset_to_cache returns
the function result fdds but writes to the cache entry the descriptor
and payload of the original dataset dds (source lines 522 and 533), so
the stored bytes are the entry content built from dds and differ from
the entry content that serializing the function-evaluation result
would produce — a later hit therefore decodes the original data, not
the first call's result, contradicting the function's own
documentation. -/
theorem c1_write_path_serializes_original :
    (write_dataset_to_cache ctx_c1 fs_empty dds_c1 rid_c1 (("mean(u,0)").data)
        slot_triv).1 = .ok (some fdds_c1) ∧
      (findEnt (write_dataset_to_cache ctx_c1 fs_empty dds_c1 rid_c1 (("mean(u,0)").data)
          slot_triv).2.files slot_triv).map FileData.content =
        (make_entry_content ctx_c1 rid_c1 dds_c1).toOption ∧
      make_entry_content ctx_c1 rid_c1 dds_c1 ≠ make_entry_content ctx_c1 rid_c1 fdds_c1 :=
  ⟨rfl, rfl, by decide⟩

/-- Witness for the amended C2 equivalence at a concrete pair. -/
theorem c2_witness :
    can_be_cached dds_triv ['m'] = true ↔
      (get_resource_id dds_triv ['m']).length ≤ max_cacheable_ce_len + 1 :=
  c2_can_be_cached_iff dds_triv ['m']
